import Mathlib

/-!
Shallow embedding of the bmpinspect BMP-file inspector (bmpinspect.go).

Conventions used throughout:
* A file or byte slice is a `List Nat` of byte values; Go slice expressions
  d[a:b] are represented by reading at explicit offsets (`getByte d (a+k)`)
  or by the slice helper `sl`.
* Go's `int64`/`int` fields are modelled as `Int`; `uint32`/`uint16` fields
  as `Nat` (their decoded values are already reduced mod 2^32 / 2^16).
  Go integer division on `int64` truncates toward zero, which is `Int.tdiv`.
* All fmt printing is dropped; only state updates and error results are kept.
  Functions that return an `error` become `Except String _`; functions whose
  Go counterpart always returns nil (inspectBits, inspectColorTable, the
  pixel printers) return their updated context directly.
-/

/-- Byte access d[i]; all uses in the model are guarded by the same length
checks the Go code performs before indexing. -/
def getByte (d : List Nat) (i : Nat) : Nat := d.getD i 0

/-- WORD: unsigned 16-bit little-endian integer at offset i (Go getWORD of d[i:i+2]). -/
def getWORD (d : List Nat) (i : Nat) : Nat :=
  getByte d i + 256 * getByte d (i + 1)

/-- DWORD: unsigned 32-bit little-endian integer at offset i (Go getDWORD of d[i:i+4]). -/
def getDWORD (d : List Nat) (i : Nat) : Nat :=
  getWORD d i + 65536 * getWORD d (i + 2)

/-- Reinterpret a 32-bit unsigned value as signed (Go int32 conversion). -/
def toSigned32 (v : Nat) : Int :=
  if v < 2147483648 then (v : Int) else (v : Int) - 4294967296

/-- LONG: signed 32-bit little-endian integer at offset i (Go getLONG). -/
def getLONG (d : List Nat) (i : Nat) : Int := toSigned32 (getDWORD d i)

/-- Go slice expression data[off : off+len] (both arguments nonnegative at
every use, mirroring the bounds the Go code has already checked). -/
def sl (d : List Nat) (off len : Int) : List Nat :=
  (d.drop off.toNat).take len.toNat

/-- The state-relevant fields of bmpinspect's ctx_type.  Cosmetic fields that
feed only fmt output (fileName, bmpVerName, fieldNamePrefix) are omitted.
Defaults are the Go zero values. -/
structure Ctx where
  fileSize : Int := 0
  pos : Int := 0
  printPixels : Bool := false
  fileType : List Nat := []
  bmpVerID : String := ""
  bitCount : Nat := 0
  imgWidth : Int := 0
  imgHeight : Int := 0
  bfOffBits : Nat := 0
  infoHeaderSize : Nat := 0
  sizeImage : Nat := 0
  compressionCode : Nat := 0
  compressionType : String := ""
  palNumEntries : Int := 0
  palBytesPerEntry : Nat := 0
  palSizeInBytes : Int := 0
  hasBitfieldsSegment : Bool := false
  bitfieldsSegmentSize : Int := 0
  hasProfile : Bool := false
  profileIsLinked : Bool := false
  profileOffset : Int := 0
  profileSize : Int := 0
  isCompressed : Bool := false
  topDown : Bool := false
  rowStride : Int := 0
  calculatedSize : Int := 0
  actualBitsSize : Int := 0
  badColorFlag : Bool := false
  badColorWarned : Bool := false
  badColorIndex : Int := 0
  badColor_X : Int := 0
  badColor_Y : Int := 0
  deriving DecidableEq

/-- The context main2 hands to readBmp: printPixels is enabled and the
compression type defaults to "none"; fileSize is the byte count of the data
read from the file. -/
def initCtx (data : List Nat) : Ctx :=
  { fileSize := (data.length : Int), printPixels := true, compressionType := "none" }

/-- The version-classification decision chain of detectVersion, as a function
of the four values the Go code has read: the reported file size (bytes 2..5),
the info-header size (bytes 14..17), and - when the file is long enough -
the bit count (bytes 28..29) and compression code (bytes 30..33).
The comparison fsize == 14+infoHeaderSize is Go uint32 arithmetic, hence
the mod 2^32 on the sum. -/
def detectVersionCore (fsize infoHeaderSize bitCount compression : Nat) : String :=
  let os2CmprFlag :=
    (compression = 3 ∧ bitCount = 1) ∨ (compression = 4 ∧ bitCount = 24)
  if infoHeaderSize = 12 ∧ fsize = (14 + infoHeaderSize) % 4294967296 then "os2v1"
  else if infoHeaderSize = 12 then "winv2"
  else if (os2CmprFlag ∨ fsize = (14 + infoHeaderSize) % 4294967296) ∧
      16 ≤ infoHeaderSize ∧ infoHeaderSize ≤ 64 then "os2v2"
  else if infoHeaderSize = 40 then "winv3"
  else if infoHeaderSize = 52 then "52"
  else if infoHeaderSize = 56 then "56"
  else if 16 ≤ infoHeaderSize ∧ infoHeaderSize ≤ 64 then "os2v2"
  else if infoHeaderSize = 108 then "winv4"
  else if infoHeaderSize = 124 then "winv5"
  else "unknown"

/-- detectVersion: inspects the file prefix and yields the bmpVerID
classification (the Go function stores it in ctx.bmpVerID; at its single
call site ctx.pos = 0, so reads are at absolute offsets).  When fewer than
18 bytes are present the Go function returns without classifying, leaving
the zero value "". -/
def detectVersion (d : List Nat) : String :=
  if d.length < 18 then ""
  else
    detectVersionCore (getDWORD d 2) (getDWORD d 14)
      (if 30 ≤ d.length then getWORD d 28 else 0)
      (if 34 ≤ d.length then getDWORD d 30 else 0)

/-- The keys of the fileTypeNames map ("BA" "BM" "CI" "CP" "IC" "PT"), as
two-byte ASCII sequences. -/
def fileTypeKnown (t : List Nat) : Bool :=
  t == [66, 65] || t == [66, 77] || t == [67, 73] || t == [67, 80] ||
  t == [73, 67] || t == [80, 84]

/-- inspectFileheader: d is the 14-byte file header slice, data the whole
file (needed because detectVersion reads beyond the file header). -/
def inspectFileheader (ctx : Ctx) (d : List Nat) (data : List Nat) : Except String Ctx :=
  let c := { ctx with fileType := d.take 2 }
  if fileTypeKnown c.fileType = false then .error "Not a BMP file"
  else if c.fileType ≠ [66, 77] then .error "File type not supported"
  else
    let c := { c with bmpVerID := detectVersion data }
    .ok { c with bfOffBits := getDWORD d 10 }

/-- getCompressionCodeInfo, restricted to the compression-type component
(the descriptive string it also returns is print-only). -/
def getCompressionCodeInfo (c : Ctx) : String :=
  match c.compressionCode with
  | 0 => "none"
  | 1 => "rle8"
  | 2 => "rle4"
  | 3 => if c.bmpVerID = "os2v2" then "huffman1d" else "none"
  | 4 => if c.bmpVerID = "os2v2" then "rle24" else "jpeg"
  | 5 => "png"
  | 6 => "none"
  | _ => "unknown"

/-- inspectInfoheaderOS2: the 12-byte OS/2 v1 / Windows v2 core header.
Width, height (WORDs), bit count; palette entries default to 2^bitCount and
are clipped when the bitmap overlaps the color table.  Planes is print-only.
The Go function always returns nil. -/
def inspectInfoheaderOS2 (ctx : Ctx) (d : List Nat) : Except String Ctx :=
  let c := { ctx with imgWidth := (getWORD d 4 : Int) }
  let c := { c with imgHeight := (getWORD d 6 : Int) }
  let c := { c with bitCount := getWORD d 10 }
  let c := { c with palBytesPerEntry := 3 }
  if c.bitCount ≤ 8 then
    let c := { c with palNumEntries := (2 : Int) ^ c.bitCount }
    let bytesAvailableForPalette : Int :=
      (c.bfOffBits : Int) - (14 + (c.infoHeaderSize : Int))
    if 3 ≤ bytesAvailableForPalette ∧
        bytesAvailableForPalette < 3 * c.palNumEntries then
      .ok { c with palNumEntries := bytesAvailableForPalette.tdiv 3 }
    else .ok c
  else .ok c

/-- Lines 405-436 of inspectInfoheaderV3: width, height (sign selects
top-down storage), bit count.  Split out of `inspectInfoheaderV3` purely to
keep each Lean definition small. -/
def v3Geometry (ctx : Ctx) (d : List Nat) : Ctx :=
  let c := { ctx with imgWidth := getLONG d 4 }
  let c := if c.imgWidth < 1 then { c with printPixels := false } else c
  let biHeight := getLONG d 8
  let c :=
    if biHeight < 0 then { c with topDown := true, imgHeight := -biHeight }
    else { c with imgHeight := biHeight }
  let c := if c.imgHeight < 1 then { c with printPixels := false } else c
  { c with bitCount := getWORD d 14 }

/-- Lines 438-463 of inspectInfoheaderV3: the compression field block,
decoded only when the slice reaches offset 20. -/
def v3Compression (c : Ctx) (d : List Nat) : Ctx :=
  if 20 ≤ d.length then
    let c := { c with compressionCode := getDWORD d 16 }
    let c := { c with compressionType := getCompressionCodeInfo c }
    let c := { c with isCompressed := c.compressionType != "none" }
    let c :=
      if c.isCompressed ∧ c.compressionType ≠ "unknown" ∧ c.topDown then
        { c with printPixels := false }
      else c
    if c.compressionCode = 3 ∧ c.bmpVerID = "winv3" then
      { c with hasBitfieldsSegment := true, bitfieldsSegmentSize := 12 }
    else if c.compressionCode = 6 ∧ c.bmpVerID = "winv3" then
      { c with hasBitfieldsSegment := true, bitfieldsSegmentSize := 16 }
    else c
  else c

/-- inspectInfoheaderV3: the 40-byte Windows v3 header, truncation-tolerant
from offset 16 on (each optional field is decoded only when the slice is
long enough).  XPelsPerMeter, YPelsPerMeter and ClrImportant are print-only.
The only error exit is a ClrUsed value above 100000. -/
def inspectInfoheaderV3 (ctx : Ctx) (d : List Nat) : Except String Ctx :=
  let c := v3Geometry ctx d
  let c := v3Compression c d
  let c := if 24 ≤ d.length then { c with sizeImage := getDWORD d 20 } else c
  let biClrUsed := if 36 ≤ d.length then getDWORD d 32 else 0
  if 100000 < biClrUsed then .error "Unreasonable color table size"
  else
    let c := { c with palBytesPerEntry := 4 }
    .ok { c with palNumEntries :=
      if 0 < c.bitCount ∧ c.bitCount ≤ 8 then
        (if biClrUsed = 0 then (2 : Int) ^ c.bitCount else (biClrUsed : Int))
      else (biClrUsed : Int) }

/-- inspectInfoheaderOS2V2: decodes the shared v3 prefix; the OS/2 v2
extension fields at offsets 40..63 (Units, Reserved, Recording, Rendering,
Size1, Size2, ColorEncoding, Identifier) are printed when they fit and never
stored in the context, so the state effect is exactly the v3 decode. -/
def inspectInfoheaderOS2V2 (ctx : Ctx) (d : List Nat) : Except String Ctx :=
  inspectInfoheaderV3 ctx d

/-- inspectInfoheaderV4: v3 prefix on d[0:40]; the channel masks, CIE
endpoints and gammas are print-only; the CSType field sets the profile
flags. -/
def inspectInfoheaderV4 (ctx : Ctx) (d : List Nat) : Except String Ctx :=
  match inspectInfoheaderV3 ctx (d.take 40) with
  | .error e => .error e
  | .ok c =>
    if d.length < 56 then .ok c
    else if d.length < 108 then .ok c
    else
      let csType := getDWORD d 56
      if csType = 1279872587 then
        .ok { c with hasProfile := true, profileIsLinked := true }
      else if csType = 1296188740 then .ok { c with hasProfile := true }
      else .ok c

/-- inspectInfoheaderV5: v4 prefix on d[0:108]; Intent and Reserved are
print-only; ProfileData/ProfileSize are stored when a profile is present
(profile offset is header-relative, hence the +14). -/
def inspectInfoheaderV5 (ctx : Ctx) (d : List Nat) : Except String Ctx :=
  match inspectInfoheaderV4 ctx (d.take 108) with
  | .error e => .error e
  | .ok c =>
    let profileData := getDWORD d 112
    let profSize := getDWORD d 116
    if c.hasProfile then
      .ok { c with profileOffset := 14 + (profileData : Int),
                   profileSize := (profSize : Int) }
    else .ok c

/-- checkBitCount: the bit-depth / version / compression compatibility
check (bI_JPEG = 4, bI_PNG = 5). -/
def checkBitCount (ctx : Ctx) : Except String Unit :=
  let valid : Bool :=
    if ctx.bitCount == 0 then
      (ctx.bmpVerID == "winv4" || ctx.bmpVerID == "winv5") &&
      (ctx.compressionCode == 4 || ctx.compressionCode == 5)
    else if ctx.bitCount == 1 || ctx.bitCount == 4 || ctx.bitCount == 8 ||
        ctx.bitCount == 24 then true
    else if ctx.bitCount == 2 then ctx.bmpVerID == "winv3"
    else if ctx.bitCount == 16 || ctx.bitCount == 32 then
      ctx.bmpVerID == "winv3" || ctx.bmpVerID == "52" || ctx.bmpVerID == "56" ||
      ctx.bmpVerID == "winv4" || ctx.bmpVerID == "winv5"
    else false
  if valid then .ok () else .error "Invalid BitCount"

/-- The versionInfo dispatch table (decode routine per bmpVerID; the
field-name prefixes it also carries are print-only). -/
def versionInfoLookup (v : String) : Option (Ctx → List Nat → Except String Ctx) :=
  match v with
  | "os2v1" => some inspectInfoheaderOS2
  | "os2v2" => some inspectInfoheaderOS2V2
  | "winv2" => some inspectInfoheaderOS2
  | "winv3" => some inspectInfoheaderV3
  | "52" => some inspectInfoheaderV4
  | "56" => some inspectInfoheaderV4
  | "winv4" => some inspectInfoheaderV4
  | "winv5" => some inspectInfoheaderV5
  | _ => none

/-- readInfoheader: length checks, version dispatch, bit-count validation,
palette size computation, cursor advance.  (Every entry of the Go
versionInfo map has a non-nil decode routine, so the "Unsupported BMP
version" arm is unreachable and not modelled.) -/
def readInfoheader (ctx : Ctx) (data : List Nat) : Except String Ctx :=
  if ctx.fileSize - ctx.pos < 4 then .error "Unexpected end of file"
  else if ctx.fileSize - ctx.pos < (ctx.infoHeaderSize : Int) then
    .error "Unexpected end of file"
  else
    match versionInfoLookup ctx.bmpVerID with
    | none => .error "Unknown BMP version"
    | some f =>
      match f ctx (sl data ctx.pos (ctx.infoHeaderSize : Int)) with
      | .error e => .error e
      | .ok c =>
        match checkBitCount c with
        | .error e => .error e
        | .ok _ =>
          let c := { c with palSizeInBytes := (c.palBytesPerEntry : Int) * c.palNumEntries }
          .ok { c with pos := c.pos + (ctx.infoHeaderSize : Int) }

/-- inspectColorTable: the only state effect is the OS/2 v2 three-byte-entry
hack; the table entries themselves are printed only. -/
def inspectColorTable (c : Ctx) (_d : List Nat) : Ctx :=
  if c.bmpVerID = "os2v2" ∧
      (c.bfOffBits : Int) - (14 + (c.infoHeaderSize : Int)) = 3 * c.palNumEntries then
    { c with palBytesPerEntry := 3, palSizeInBytes := 3 * c.palNumEntries }
  else c

/-- badColor: latch information about the first bad palette index seen while
decoding uncompressed pixels (note the Go function does not set badColor_Y). -/
def badColor (ctx : Ctx) (n : Int) (xpos : Int) : Ctx :=
  if ctx.badColorFlag then ctx
  else { ctx with badColorIndex := n, badColor_X := xpos, badColorFlag := true }

/-- Walk a row's pixels left to right: `rowPixels pix c d n` applies the
per-pixel action at indices 0,1,...,n-1 in order. -/
def rowPixels (pix : Ctx → List Nat → Nat → Ctx) (c : Ctx) (d : List Nat) : Nat → Ctx
  | 0 => c
  | n + 1 => pix (rowPixels pix c d n) d n

/-- printRow_1: 1 bit per pixel, MSB first; the printed value is 0 or 1 and
is bounds-checked against the palette. -/
def printRow_1 (ctx : Ctx) (d : List Nat) : Ctx :=
  rowPixels
    (fun c d i =>
      let n : Nat := if getByte d (i / 8) &&& (1 <<< (7 - i % 8)) = 0 then 0 else 1
      if c.palNumEntries ≤ (n : Int) then badColor c (n : Int) (i : Int) else c)
    ctx d ctx.imgWidth.toNat

/-- printRow_2: 2 bits per pixel, MSB first. -/
def printRow_2 (ctx : Ctx) (d : List Nat) : Ctx :=
  rowPixels
    (fun c d i =>
      let n : Nat := (getByte d (i / 4) >>> (2 * (3 - i % 4))) &&& 3
      if c.palNumEntries ≤ (n : Int) then badColor c (n : Int) (i : Int) else c)
    ctx d ctx.imgWidth.toNat

/-- printRow_4: 4 bits per pixel, high nibble first. -/
def printRow_4 (ctx : Ctx) (d : List Nat) : Ctx :=
  rowPixels
    (fun c d i =>
      let n : Nat := if i % 2 = 0 then getByte d (i / 2) >>> 4 else getByte d (i / 2) &&& 15
      if c.palNumEntries ≤ (n : Int) then badColor c (n : Int) (i : Int) else c)
    ctx d ctx.imgWidth.toNat

/-- printRow_8: one byte per pixel. -/
def printRow_8 (ctx : Ctx) (d : List Nat) : Ctx :=
  rowPixels
    (fun c d i =>
      let n : Nat := getByte d i
      if c.palNumEntries ≤ (n : Int) then badColor c (n : Int) (i : Int) else c)
    ctx d ctx.imgWidth.toNat

/-- printRow_16 / printRow_24 / printRow_32 print pixel values but never
touch the context (no palette check for direct-color depths). -/
def printRow_16 (ctx : Ctx) (_d : List Nat) : Ctx := ctx

/-- See printRow_16. -/
def printRow_24 (ctx : Ctx) (_d : List Nat) : Ctx := ctx

/-- See printRow_16. -/
def printRow_32 (ctx : Ctx) (_d : List Nat) : Ctx := ctx

/-- The printRowFuncs dispatch map, keyed by bit count. -/
def printRowFuncs (bitCount : Nat) : Option (Ctx → List Nat → Ctx) :=
  match bitCount with
  | 1 => some printRow_1
  | 2 => some printRow_2
  | 4 => some printRow_4
  | 8 => some printRow_8
  | 16 => some printRow_16
  | 24 => some printRow_24
  | 32 => some printRow_32
  | _ => none

/-- The row loop of printUncompressedPixels: physical rows 0..n-1 in order;
after each row the pending bad-palette-index warning (if any) is printed and
marked as warned. -/
def uncompRows (pR : Ctx → List Nat → Ctx) (d : List Nat) (ctx : Ctx) : Nat → Ctx
  | 0 => ctx
  | n + 1 =>
    let c := uncompRows pR d ctx n
    let c2 := pR c (sl d ((n : Int) * c.rowStride) c.rowStride)
    if c2.badColorFlag ∧ c2.badColorWarned = false then { c2 with badColorWarned := true }
    else c2

/-- printUncompressedPixels: select the per-row routine by bit count and walk
all physical rows (the physical/logical row mapping affects output only). -/
def printUncompressedPixels (ctx : Ctx) (d : List Nat) : Ctx :=
  match printRowFuncs ctx.bitCount with
  | none => ctx
  | some pR => uncompRows pR d ctx ctx.imgHeight.toNat

/-- The state of printRLECompressedPixels' decode loop: the context plus the
local rlectx_type fields, the position in the pixel region, and the local
variables of the loop (pending-literal count, delta flag, RLE24 pending flag
and byte-accumulation buffer clr24bytes[0..3]). -/
structure RLESt where
  ctx : Ctx
  bytesInThisRow : Nat := 0
  rowHeaderPrinted : Bool := false
  xpos : Int := 0
  ypos : Int := 0
  badPosFlag : Bool := false
  badPosWarned : Bool := false
  badPos_X : Int := 0
  badPos_Y : Int := 0
  pos : Nat := 0
  unc_pixels_left : Int := 0
  deltaFlag : Bool := false
  rle24pendingFlag : Bool := false
  c0 : Nat := 0
  c1 : Nat := 0
  c2 : Nat := 0
  c3 : Nat := 0
  clr24bytes_used : Nat := 0
  deriving DecidableEq

/-- checkRLEPosAndColor: latch the first out-of-bounds position, and (except
for RLE24, compression code 4) the first bad palette index. -/
def checkRLEPosAndColor (st : RLESt) (n : Nat) : RLESt :=
  let st :=
    if (st.ctx.imgWidth ≤ st.xpos ∨ st.ypos < 0) ∧ st.badPosFlag = false then
      { st with badPosFlag := true, badPos_X := st.xpos, badPos_Y := st.ypos }
    else st
  if st.ctx.compressionCode = 4 then st
  else if st.ctx.palNumEntries ≤ (n : Int) ∧ st.ctx.badColorFlag = false then
    let c := { st.ctx with badColorIndex := (n : Int), badColor_X := st.xpos,
                           badColor_Y := st.ypos, badColorFlag := true }
    { st with ctx := c }
  else st

/-- endRLERow: close the current row (print its byte count) and print any
pending out-of-bounds / bad-palette-index warnings, marking them warned. -/
def endRLERow (st : RLESt) : RLESt :=
  let st :=
    if st.rowHeaderPrinted then { st with bytesInThisRow := 0, rowHeaderPrinted := false }
    else st
  let st :=
    if st.badPosFlag ∧ st.badPosWarned = false then { st with badPosWarned := true }
    else st
  if st.ctx.badColorFlag ∧ st.ctx.badColorWarned = false then
    { st with ctx := { st.ctx with badColorWarned := true } }
  else st

/-- clr24bytes[i] = v (index 3 is the last cell; the Go array has exactly
four cells and every in-range write has i ≤ 3). -/
def setClr (st : RLESt) (i : Nat) (v : Nat) : RLESt :=
  match i with
  | 0 => { st with c0 := v }
  | 1 => { st with c1 := v }
  | 2 => { st with c2 := v }
  | _ => { st with c3 := v }

/-- One literal pixel for RLE4/RLE8: check palette/position, advance the
column, consume one pending pixel. -/
def rleLiteralPixel (st : RLESt) (n : Nat) : RLESt :=
  let st := checkRLEPosAndColor st n
  { st with xpos := st.xpos + 1, unc_pixels_left := st.unc_pixels_left - 1 }

/-- The RLE24 arm of the literal-run branch: append the byte pair to the
color buffer and emit a pixel once three bytes are available. -/
def rleLiteral24 (st : RLESt) (b1 b2 : Nat) : RLESt :=
  let st := setClr st st.clr24bytes_used b1
  let st := { st with clr24bytes_used := st.clr24bytes_used + 1 }
  let st := setClr st st.clr24bytes_used b2
  let st := { st with clr24bytes_used := st.clr24bytes_used + 1 }
  let st :=
    if 3 ≤ st.clr24bytes_used then
      let st := checkRLEPosAndColor st 0
      let st := { st with xpos := st.xpos + 1, unc_pixels_left := st.unc_pixels_left - 1 }
      let st := if st.clr24bytes_used = 4 then { st with c0 := st.c3 } else st
      { st with clr24bytes_used := st.clr24bytes_used - 3 }
    else st
  if st.unc_pixels_left < 1 then { st with clr24bytes_used := 0 } else st

/-- The RLE4 arm of the literal-run branch: up to four 4-bit pixels from the
byte pair. -/
def rleLiteral4 (st : RLESt) (b1 b2 : Nat) : RLESt :=
  let st := rleLiteralPixel st (b1 >>> 4)
  let st := if 0 < st.unc_pixels_left then rleLiteralPixel st (b1 &&& 15) else st
  let st := if 0 < st.unc_pixels_left then rleLiteralPixel st (b2 >>> 4) else st
  if 0 < st.unc_pixels_left then rleLiteralPixel st (b2 &&& 15) else st

/-- The RLE8 arm of the literal-run branch: up to two byte pixels. -/
def rleLiteral8 (st : RLESt) (b1 b2 : Nat) : RLESt :=
  let st := rleLiteralPixel st b1
  if 0 < st.unc_pixels_left then rleLiteralPixel st b2 else st

/-- The delta branch: (b1,b2) = (dx,dy); a nonzero dy ends the current row. -/
def rleDelta (st : RLESt) (b1 b2 : Nat) : RLESt :=
  let st := { st with xpos := st.xpos + (b1 : Int), ypos := st.ypos - (b2 : Int) }
  let st := if 0 < b2 then endRLERow st else st
  { st with deltaFlag := false }

/-- The last two bytes of a four-byte RLE24 run code: complete the color,
check the run's first and last pixel positions, advance past the run. -/
def rlePending24 (st : RLESt) (b1 b2 : Nat) : RLESt :=
  let st := { st with c2 := b1, c3 := b2 }
  let st := checkRLEPosAndColor st 0
  let st := { st with xpos := st.xpos + (st.c0 : Int) - 1 }
  let st := checkRLEPosAndColor st 0
  let st := { st with xpos := st.xpos + 1 }
  { st with rle24pendingFlag := false, clr24bytes_used := 0 }

/-- A compressed RLE4 run: b1 pixels alternating between the two nibbles of
b2; the first, second and last pixels are checked. -/
def rleRun4 (st : RLESt) (b1 b2 : Nat) : RLESt :=
  let n1 := b2 >>> 4
  let n2 := b2 &&& 15
  let st := checkRLEPosAndColor st n1
  let st := { st with xpos := st.xpos + 1 }
  if 1 < b1 then
    let st := checkRLEPosAndColor st n2
    let st := { st with xpos := st.xpos + 1 }
    if 2 < b1 then
      let st := { st with xpos := st.xpos + ((b1 : Int) - 3) }
      let st := checkRLEPosAndColor st 0
      { st with xpos := st.xpos + 1 }
    else st
  else st

/-- A compressed RLE8 run: b1 pixels of value b2; the first and last pixels
are checked. -/
def rleRun8 (st : RLESt) (b1 b2 : Nat) : RLESt :=
  let st := checkRLEPosAndColor st b2
  let st := { st with xpos := st.xpos + (b1 : Int) - 1 }
  let st := checkRLEPosAndColor st b2
  { st with xpos := st.xpos + 1 }

/-- The first two bytes of a four-byte RLE24 run code: remember the run
length and first color byte; the rest arrives with the next byte pair. -/
def rleRun24 (st : RLESt) (b1 b2 : Nat) : RLESt :=
  let st := checkRLEPosAndColor st 0
  { st with c0 := b1, c1 := b2, clr24bytes_used := 2, rle24pendingFlag := true }

/-- The control-code branch (b1 = 0): end of line, end of bitmap (the Bool
result signals the loop break), delta, or the start of a literal run. -/
def rleControl (st : RLESt) (b2 : Nat) : RLESt × Bool :=
  if b2 = 0 then
    let st := endRLERow st
    ({ st with ypos := st.ypos - 1, xpos := 0 }, false)
  else if b2 = 1 then (endRLERow st, true)
  else if b2 = 2 then ({ st with deltaFlag := true }, false)
  else ({ st with unc_pixels_left := (b2 : Int) }, false)

/-- The start of each loop iteration: the row header is printed if pending,
and the cursor and per-row byte count advance by the two bytes read. -/
def rleAdvance (st0 : RLESt) : RLESt :=
  { st0 with rowHeaderPrinted := true, pos := st0.pos + 2,
             bytesInThisRow := st0.bytesInThisRow + 2 }

/-- One iteration of the decode loop after the two-byte read (b1,b2). -/
def rleStep (st0 : RLESt) (b1 b2 : Nat) : RLESt × Bool :=
  let st := rleAdvance st0
  if 0 < st.unc_pixels_left then
    if st.ctx.compressionCode = 4 then (rleLiteral24 st b1 b2, false)
    else if st.ctx.compressionCode = 2 then (rleLiteral4 st b1 b2, false)
    else (rleLiteral8 st b1 b2, false)
  else if st.deltaFlag then (rleDelta st b1 b2, false)
  else if st.rle24pendingFlag then (rlePending24 st b1 b2, false)
  else if b1 = 0 then rleControl st b2
  else if st.ctx.compressionCode = 4 then (rleRun24 st b1 b2, false)
  else if st.ctx.compressionCode = 2 then (rleRun4 st b1 b2, false)
  else (rleRun8 st b1 b2, false)

/-- The decode loop of printRLECompressedPixels: reads byte pairs until an
end-of-bitmap code (Bool result true) or until fewer than two bytes remain,
in which case the current row is closed out and decoding stops (Bool result
false). -/
def rleLoop : List Nat → RLESt → RLESt × Bool
  | b1 :: b2 :: rest, st =>
    let p := rleStep st b1 b2
    if p.2 then p else rleLoop rest p.1
  | _, st => (endRLERow st, false)

/-- The initial loop state: column 0; RLE-compressed BMPs are never top-down,
so decoding starts at the bottom row imgHeight-1. -/
def initRLESt (ctx : Ctx) : RLESt :=
  { ctx := ctx, ypos := ctx.imgHeight - 1 }

/-- printRLECompressedPixels: guard the bit-count/compression-code pairing,
run the decode loop, and record the bytes consumed as the actual size of the
pixel region.  The Go function has no error exit. -/
def printRLECompressedPixels (ctx : Ctx) (d : List Nat) : Ctx :=
  if ctx.bitCount ≠ 4 ∧ ctx.bitCount ≠ 8 ∧ ctx.bitCount ≠ 24 then ctx
  else if ctx.bitCount = 4 ∧ ctx.compressionCode ≠ 2 then ctx
  else if ctx.bitCount = 8 ∧ ctx.compressionCode ≠ 1 then ctx
  else if ctx.bitCount = 24 ∧ ctx.compressionCode ≠ 4 then ctx
  else
    let final := (rleLoop d (initRLESt ctx)).1
    { final.ctx with actualBitsSize := (final.pos : Int) }

/-- inspectBits: compute the row stride and expected image size, then decode
the pixel region if permitted.  The Go function always returns nil, so the
updated context is returned directly. -/
def inspectBits (ctx : Ctx) (d : List Nat) : Ctx :=
  let ctx := { ctx with rowStride :=
    ((ctx.imgWidth * (ctx.bitCount : Int) + 31).tdiv 32) * 4 }
  let ctx := { ctx with calculatedSize := ctx.rowStride * ctx.imgHeight }
  let ctx :=
    if ctx.isCompressed = false then { ctx with actualBitsSize := ctx.calculatedSize }
    else ctx
  let ctx :=
    if ctx.isCompressed = false then
      if ctx.rowStride < 1 ∨ 1000000 < ctx.rowStride then { ctx with printPixels := false }
      else if (d.length : Int) < ctx.calculatedSize then { ctx with printPixels := false }
      else ctx
    else ctx
  if ctx.printPixels then
    match ctx.compressionType with
    | "none" => printUncompressedPixels ctx d
    | "rle8" | "rle4" | "rle24" => printRLECompressedPixels ctx d
    | _ => ctx
  else ctx

/-- Lines 1419-1451 of readBmp: everything after the pixel region has been
inspected.  If no pixel bytes were consumed, readBmp returns success at once;
otherwise the cursor advances past the pixel data and, when a color profile
is flagged, its location and size are validated (a gap before the profile is
unused padding; the profile contents are print-only). -/
def readBmpFinish (ctx : Ctx) : Except String Ctx :=
  if ctx.actualBitsSize < 1 then .ok ctx
  else
    let ctx := { ctx with pos := ctx.pos + ctx.actualBitsSize }
    if ctx.hasProfile then
      if ctx.pos > ctx.profileOffset then .error "Invalid color profile location"
      else
        let ctx := if ctx.pos < ctx.profileOffset then { ctx with pos := ctx.profileOffset }
                   else ctx
        if ctx.pos + ctx.profileSize > ctx.fileSize then .error "Invalid color profile size"
        else .ok { ctx with pos := ctx.pos + ctx.profileSize }
    else .ok ctx

/-- Lines 1413-1417 of readBmp: the rest of the file from the cursor onward
is taken to be the pixel region and inspected, then finished off. -/
def readBmpBits (ctx : Ctx) (data : List Nat) : Except String Ctx :=
  readBmpFinish (inspectBits ctx (sl data ctx.pos (ctx.fileSize - ctx.pos)))

/-- Lines 1400-1411 of readBmp: validate the advertised pixel-data offset
bfOffBits against the cursor and file size; a gap up to the offset is
reported as unused bytes (print-only) and skipped, never an error. -/
def readBmpTail (ctx : Ctx) (data : List Nat) : Except String Ctx :=
  if (ctx.bfOffBits : Int) < ctx.pos ∨ (ctx.bfOffBits : Int) > ctx.fileSize then
    .error "Bad bfOffBits value"
  else readBmpBits { ctx with pos := (ctx.bfOffBits : Int) } data

/-- Lines 1389-1398 of readBmp: consume the color table when present. -/
def readBmpPalette (c : Ctx) (data : List Nat) : Except String Ctx :=
  if 0 < c.palSizeInBytes then
    if c.fileSize - c.pos < c.palSizeInBytes then .error "Unexpected end of file"
    else
      let c2 := inspectColorTable c (sl data c.pos c.palSizeInBytes)
      readBmpTail { c2 with pos := c2.pos + c2.palSizeInBytes } data
  else readBmpTail c data

/-- Lines 1378-1387 of readBmp: consume the bitfields segment when present
(inspectBitfields prints the masks and has no state effect). -/
def readBmpBitfields (c : Ctx) (data : List Nat) : Except String Ctx :=
  if c.hasBitfieldsSegment then
    if c.fileSize - c.pos < c.bitfieldsSegmentSize then .error "Unexpected end of file"
    else readBmpPalette { c with pos := c.pos + c.bitfieldsSegmentSize } data
  else readBmpPalette c data

/-- readBmp: the whole decode pipeline over the in-memory file. -/
def readBmp (ctx : Ctx) (data : List Nat) : Except String Ctx :=
  if ctx.fileSize - ctx.pos < 18 then .error "File is too small to be a BMP"
  else
    let ctx := { ctx with infoHeaderSize := getDWORD data (ctx.pos.toNat + 14) }
    match inspectFileheader ctx (sl data ctx.pos 14) data with
    | .error e => .error e
    | .ok c =>
      let c := { c with pos := c.pos + 14 }
      match readInfoheader c data with
      | .error e => .error e
      | .ok c => readBmpBitfields c data

/-- The bit-depth acceptance rule as the specification document states it:
depths 1/4/8/24 always; depth 0 only on Windows v4/v5 with JPEG (4) or
PNG (5) compression codes; depth 2 only on Windows v3; depths 16/32 only on
v3-and-later variants.  Written from the spec's words, to be compared with
`checkBitCount`. -/
def specBitCountAllowed (verID : String) (depth code : Nat) : Bool :=
  (depth == 1 || depth == 4 || depth == 8 || depth == 24) ||
  (depth == 0 && (verID == "winv4" || verID == "winv5") && (code == 4 || code == 5)) ||
  (depth == 2 && verID == "winv3") ||
  ((depth == 16 || depth == 32) &&
   (verID == "winv3" || verID == "52" || verID == "56" ||
    verID == "winv4" || verID == "winv5"))

/-!  Concrete inputs used by witness and counterexample theorems.  -/

/-- A 34-byte file prefix: info-header size 40, reported size 0, bit count 1
(bytes 28..29) and compression code 3 (bytes 30..33), which triggers the
OS/2 v2 compression heuristic of detectVersion. -/
def fileOs2Heuristic : List Nat :=
  [66, 77, 0, 0, 0, 0, 0, 0, 0, 0, 0, 0, 0, 0, 40, 0, 0, 0,
   0, 0, 0, 0, 0, 0, 0, 0, 0, 0, 1, 0, 3, 0, 0, 0]

/-- Identical to `fileOs2Heuristic` in its first 18 bytes, but with bit count
and compression code zeroed. -/
def fileWinV3Plain : List Nat :=
  [66, 77, 0, 0, 0, 0, 0, 0, 0, 0, 0, 0, 0, 0, 40, 0, 0, 0,
   0, 0, 0, 0, 0, 0, 0, 0, 0, 0, 0, 0, 0, 0, 0, 0]

/-- A 35-byte file. -/
def filePrefixA : List Nat :=
  [66, 77, 26, 0, 0, 0, 0, 0, 0, 0, 0, 0, 0, 0, 12, 0, 0, 0,
   0, 0, 0, 0, 0, 0, 0, 0, 0, 0, 0, 0, 0, 0, 0, 0, 9]

/-- Agrees with `filePrefixA` on the first 34 bytes, differs at index 34. -/
def filePrefixB : List Nat :=
  [66, 77, 26, 0, 0, 0, 0, 0, 0, 0, 0, 0, 0, 0, 12, 0, 0, 0,
   0, 0, 0, 0, 0, 0, 0, 0, 0, 0, 0, 0, 0, 0, 0, 0, 200]

/-- An 18-byte file whose header-size field is 12 and whose reported total
size is 26 = 14 + 12. -/
def fileOs2V1 : List Nat :=
  [66, 77, 26, 0, 0, 0, 0, 0, 0, 0, 0, 0, 0, 0, 12, 0, 0, 0]

/-- A 44-byte OS/2 v2 header slice whose ClrUsed field (bytes 32..35) holds
200000. -/
def os2v2TruncBadClrUsed : List Nat :=
  [0, 0, 0, 0, 0, 0, 0, 0, 0, 0, 0, 0, 0, 0, 0, 0, 0, 0, 0, 0, 0, 0,
   0, 0, 0, 0, 0, 0, 0, 0, 0, 0, 64, 13, 3, 0, 0, 0, 0, 0, 0, 0, 0, 0]

/-- A 44-byte OS/2 v2 header slice: width 4, height 4, bit count 8, all
optional fields zero. -/
def os2v2TruncGood : List Nat :=
  [0, 0, 0, 0, 4, 0, 0, 0, 4, 0, 0, 0, 1, 0, 8, 0, 0, 0, 0, 0, 0, 0,
   0, 0, 0, 0, 0, 0, 0, 0, 0, 0, 0, 0, 0, 0, 0, 0, 0, 0, 0, 0, 0, 0]

/-- A context as it stands when inspectInfoheaderOS2 decodes an OS/2 v1
header whose pixel data begins 30 bytes after the headers: bfOffBits 56,
header size 12.  The color table then overlaps the bitmap. -/
def os2OverlapCtx : Ctx := { bfOffBits := 56, infoHeaderSize := 12 }

/-- A 12-byte OS/2 v1 header slice with bit count 8. -/
def os2Depth8Header : List Nat := [12, 0, 0, 0, 0, 0, 0, 0, 1, 0, 8, 0]

/-- A 40-byte Windows v3 header slice: width 2, height 2, bit count 8,
ClrUsed 7. -/
def v3Depth8Header : List Nat :=
  [40, 0, 0, 0, 2, 0, 0, 0, 2, 0, 0, 0, 1, 0, 8, 0, 0, 0, 0, 0, 0, 0, 0, 0,
   0, 0, 0, 0, 0, 0, 0, 0, 7, 0, 0, 0, 0, 0, 0, 0]

/-- A context for stride computation: width 2, 24 bits per pixel. -/
def strideCtx : Ctx := { imgWidth := 2, bitCount := 24 }

/-- A context mid-RLE8-decode: 10 x 2 indexed image with a 4-entry palette. -/
def rle8Ctx : Ctx :=
  { bitCount := 8, compressionCode := 1, imgWidth := 10, imgHeight := 2,
    palNumEntries := 4, printPixels := true, compressionType := "rle8",
    isCompressed := true }

/-- The RLE decode state at the start of decoding with `rle8Ctx`. -/
def rle8St : RLESt := initRLESt rle8Ctx

/-- `rle8Ctx` with the bad-palette-index latch already set. -/
def rle8CtxLatched : Ctx :=
  { rle8Ctx with badColorFlag := true, badColorIndex := 9,
                 badColor_X := 3, badColor_Y := 1 }

/-- An RLE state whose bad-palette-index latch is already set. -/
def rle8StLatched : RLESt := initRLESt rle8CtxLatched

/-- A 58-byte Windows v3 BMP: 1 x 1 pixels at 24 bits per pixel,
uncompressed, bfOffBits = 54 - exactly the offset at which the cursor sits
once the headers are consumed (no bitfields, no palette). -/
def fileTightOffset : List Nat :=
  [66, 77, 58, 0, 0, 0, 0, 0, 0, 0, 54, 0, 0, 0,
   40, 0, 0, 0, 1, 0, 0, 0, 1, 0, 0, 0, 1, 0, 24, 0,
   0, 0, 0, 0, 0, 0, 0, 0, 0, 0, 0, 0, 0, 0, 0, 0, 0, 0, 0, 0, 0, 0, 0, 0,
   0, 0, 0, 0]

/-- The context of `fileTightOffset` at the moment readBmp validates
bfOffBits: headers consumed, cursor at 54 = bfOffBits. -/
def tightOffsetCtx : Ctx :=
  { fileSize := 58, pos := 54, printPixels := true, fileType := [66, 77],
    bmpVerID := "winv3", bitCount := 24, imgWidth := 1, imgHeight := 1,
    bfOffBits := 54, infoHeaderSize := 40, compressionType := "none",
    palBytesPerEntry := 4 }

/-- A context in which pixel decoding consumed no bytes although the header
flagged an embedded profile at an impossible location. -/
def skippedBitsCtx : Ctx :=
  { fileSize := 10, pos := 5, actualBitsSize := 0, hasProfile := true,
    profileOffset := 3, profileSize := 1000000 }

/-- A context whose advertised pixel-data offset (5) lies before the cursor
(9). -/
def badOffCtx : Ctx := { bfOffBits := 5, pos := 9, fileSize := 20 }

/-!  Helper lemmas.  -/

/-- Reading inside the prefix kept by take. -/
theorem getByte_take (d : List Nat) (n i : Nat) (h : i < n) :
    getByte (d.take n) i = getByte d i := by
  simp [getByte, List.getD, List.getElem?_take, h]

/-- Two lists agreeing on a prefix agree on every byte inside it. -/
theorem getByte_eq_of_take (d1 d2 : List Nat) (n : Nat) (h : d1.take n = d2.take n)
    (i : Nat) (hi : i < n) : getByte d1 i = getByte d2 i := by
  rw [← getByte_take d1 n i hi, h, getByte_take d2 n i hi]

/-- Two lists agreeing on a prefix agree on every WORD inside it. -/
theorem getWORD_eq_of_take (d1 d2 : List Nat) (n : Nat) (h : d1.take n = d2.take n)
    (i : Nat) (hi : i + 1 < n) : getWORD d1 i = getWORD d2 i := by
  unfold getWORD
  rw [getByte_eq_of_take d1 d2 n h i (by omega), getByte_eq_of_take d1 d2 n h (i + 1) hi]

/-- Two lists agreeing on a prefix agree on every DWORD inside it. -/
theorem getDWORD_eq_of_take (d1 d2 : List Nat) (n : Nat) (h : d1.take n = d2.take n)
    (i : Nat) (hi : i + 3 < n) : getDWORD d1 i = getDWORD d2 i := by
  unfold getDWORD
  rw [getWORD_eq_of_take d1 d2 n h i (by omega), getWORD_eq_of_take d1 d2 n h (i + 2) (by omega)]

/-!  C1.  -/

/-- C1, counterexample: two files with identical first 18 bytes (info-header
size 40, reported size 0) that detectVersion classifies differently, because
the OS/2-compression heuristic also reads bytes 28..33: the first is
classified "os2v2", the second "winv3". -/
theorem detectVersion_not_prefix18 :
    fileOs2Heuristic.take 18 = fileWinV3Plain.take 18 ∧
    detectVersion fileOs2Heuristic ≠ detectVersion fileWinV3Plain := by
  constructor
  · decide
  · decide

/-- C1 (amended): version detection is a deterministic pure function of the
first at-most-34 bytes of the file: files agreeing on their first 34 bytes
receive the identical classification (18 bytes is not enough, since the
heuristic for OS/2 v2 also consults the bit count at offset 28 and the
compression code at offset 30 when the file is long enough). -/
theorem detectVersion_prefix34 (d1 d2 : List Nat) (h : d1.take 34 = d2.take 34) :
    detectVersion d1 = detectVersion d2 := by
  have hlen : min 34 d1.length = min 34 d2.length := by
    have h2 := congrArg List.length h
    simpa using h2
  unfold detectVersion
  by_cases h18 : d1.length < 18
  · rw [if_pos h18, if_pos (show d2.length < 18 by omega)]
  · rw [if_neg h18, if_neg (show ¬d2.length < 18 by omega)]
    have e28 : (if 30 ≤ d1.length then getWORD d1 28 else 0)
        = (if 30 ≤ d2.length then getWORD d2 28 else 0) := by
      by_cases h30 : 30 ≤ d1.length
      · rw [if_pos h30, if_pos (show 30 ≤ d2.length by omega),
          getWORD_eq_of_take d1 d2 34 h 28 (by omega)]
      · rw [if_neg h30, if_neg (show ¬30 ≤ d2.length by omega)]
    have e30 : (if 34 ≤ d1.length then getDWORD d1 30 else 0)
        = (if 34 ≤ d2.length then getDWORD d2 30 else 0) := by
      by_cases h34 : 34 ≤ d1.length
      · rw [if_pos h34, if_pos (show 34 ≤ d2.length by omega),
          getDWORD_eq_of_take d1 d2 34 h 30 (by omega)]
      · rw [if_neg h34, if_neg (show ¬34 ≤ d2.length by omega)]
    rw [getDWORD_eq_of_take d1 d2 34 h 2 (by omega),
      getDWORD_eq_of_take d1 d2 34 h 14 (by omega), e28, e30]

/-- C1, witness: two concrete 35-byte files agreeing on their first 34 bytes
classify identically. -/
theorem detectVersion_prefix34_witness :
    filePrefixA.take 34 = filePrefixB.take 34 ∧
    detectVersion filePrefixA = detectVersion filePrefixB :=
  ⟨by decide, detectVersion_prefix34 filePrefixA filePrefixB (by decide)⟩

/-!  C6.  -/

/-- C6: when the info-header-size field reads 12, the file is classified
OS/2 v1 exactly when the reported total size equals 14 + 12 = 26, and
Windows v2 otherwise. -/
theorem detectVersion_size12 (d : List Nat) (h18 : 18 ≤ d.length)
    (h12 : getDWORD d 14 = 12) :
    detectVersion d = if getDWORD d 2 = 26 then "os2v1" else "winv2" := by
  unfold detectVersion detectVersionCore
  rw [if_neg (by omega), h12]
  by_cases hf : getDWORD d 2 = 26
  · rw [if_pos hf]
    rw [if_pos ⟨rfl, by norm_num [hf]⟩]
  · rw [if_neg hf]
    rw [if_neg (by rintro ⟨h1, h2⟩; exact hf (by norm_num at h2; exact h2)), if_pos rfl]

/-- C6, witness: a concrete 18-byte file with header size 12 and reported
size 26 is classified "os2v1". -/
theorem detectVersion_size12_witness :
    18 ≤ fileOs2V1.length ∧ getDWORD fileOs2V1 14 = 12 ∧
    detectVersion fileOs2V1 = if getDWORD fileOs2V1 2 = 26 then "os2v1" else "winv2" :=
  ⟨by decide, by decide, detectVersion_size12 fileOs2V1 (by decide) (by decide)⟩

/-!  C5.  -/

/-- C5: checkBitCount accepts exactly the combinations the specification
lists (depths 1/4/8/24 for every variant; depth 0 only for Windows v4/v5
with JPEG/PNG compression codes; depth 2 only for Windows v3; depths 16/32
only for v3-and-later variants), and every other combination produces the
fatal "Invalid BitCount" error (readInfoheader propagates it, so readBmp
never reaches inspectBits in that case). -/
theorem checkBitCount_matches_spec (ctx : Ctx) :
    checkBitCount ctx =
      if specBitCountAllowed ctx.bmpVerID ctx.bitCount ctx.compressionCode then .ok ()
      else .error "Invalid BitCount" := by
  unfold checkBitCount specBitCountAllowed
  by_cases h0 : ctx.bitCount = 0
  · simp [h0]
  · by_cases h1 : ctx.bitCount = 1
    · simp [h1]
    · by_cases h4 : ctx.bitCount = 4
      · simp [h4]
      · by_cases h8 : ctx.bitCount = 8
        · simp [h8]
        · by_cases h24 : ctx.bitCount = 24
          · simp [h24]
          · by_cases h2 : ctx.bitCount = 2
            · simp [h2]
            · by_cases h16 : ctx.bitCount = 16
              · simp [h16]
              · by_cases h32 : ctx.bitCount = 32
                · simp [h32]
                · simp [h0, h1, h4, h8, h24, h2, h16, h32]

/-!  Preservation lemmas for the RLE decode state machine.  -/

/-- checkRLEPosAndColor never touches the computed row stride. -/
theorem checkRLE_rowStride (st : RLESt) (n : Nat) :
    (checkRLEPosAndColor st n).ctx.rowStride = st.ctx.rowStride := by
  simp only [checkRLEPosAndColor]
  split_ifs <;> rfl

/-- endRLERow never touches the computed row stride. -/
theorem endRLERow_rowStride (st : RLESt) :
    (endRLERow st).ctx.rowStride = st.ctx.rowStride := by
  simp only [endRLERow]
  split_ifs <;> rfl

/-- setClr leaves the context untouched. -/
theorem setClr_ctx (st : RLESt) (i v : Nat) : (setClr st i v).ctx = st.ctx := by
  unfold setClr
  repeat' split
  all_goals rfl

/-- rleLiteralPixel never touches the row stride. -/
theorem rleLiteralPixel_rowStride (st : RLESt) (n : Nat) :
    (rleLiteralPixel st n).ctx.rowStride = st.ctx.rowStride := by
  simp only [rleLiteralPixel]
  exact checkRLE_rowStride st n

/-- The RLE24 literal arm never touches the row stride. -/
theorem rleLiteral24_rowStride (st : RLESt) (b1 b2 : Nat) :
    (rleLiteral24 st b1 b2).ctx.rowStride = st.ctx.rowStride := by
  simp only [rleLiteral24]
  split_ifs <;> simp [setClr_ctx, checkRLE_rowStride]

/-- The RLE4 literal arm never touches the row stride. -/
theorem rleLiteral4_rowStride (st : RLESt) (b1 b2 : Nat) :
    (rleLiteral4 st b1 b2).ctx.rowStride = st.ctx.rowStride := by
  simp only [rleLiteral4]
  split_ifs <;> simp only [rleLiteralPixel_rowStride]

/-- The RLE8 literal arm never touches the row stride. -/
theorem rleLiteral8_rowStride (st : RLESt) (b1 b2 : Nat) :
    (rleLiteral8 st b1 b2).ctx.rowStride = st.ctx.rowStride := by
  simp only [rleLiteral8]
  split_ifs <;> simp only [rleLiteralPixel_rowStride]

/-- The delta arm never touches the row stride. -/
theorem rleDelta_rowStride (st : RLESt) (b1 b2 : Nat) :
    (rleDelta st b1 b2).ctx.rowStride = st.ctx.rowStride := by
  simp only [rleDelta]
  split_ifs <;> simp only [endRLERow_rowStride]

/-- The RLE24 run-completion arm never touches the row stride. -/
theorem rlePending24_rowStride (st : RLESt) (b1 b2 : Nat) :
    (rlePending24 st b1 b2).ctx.rowStride = st.ctx.rowStride := by
  simp only [rlePending24, checkRLE_rowStride]

/-- The RLE4 compressed-run arm never touches the row stride. -/
theorem rleRun4_rowStride (st : RLESt) (b1 b2 : Nat) :
    (rleRun4 st b1 b2).ctx.rowStride = st.ctx.rowStride := by
  simp only [rleRun4]
  split_ifs <;> simp only [checkRLE_rowStride]

/-- The RLE8 compressed-run arm never touches the row stride. -/
theorem rleRun8_rowStride (st : RLESt) (b1 b2 : Nat) :
    (rleRun8 st b1 b2).ctx.rowStride = st.ctx.rowStride := by
  simp only [rleRun8, checkRLE_rowStride]

/-- The RLE24 run-start arm never touches the row stride. -/
theorem rleRun24_rowStride (st : RLESt) (b1 b2 : Nat) :
    (rleRun24 st b1 b2).ctx.rowStride = st.ctx.rowStride := by
  simp only [rleRun24, checkRLE_rowStride]

/-- The control-code arm never touches the row stride. -/
theorem rleControl_rowStride (st : RLESt) (b2 : Nat) :
    (rleControl st b2).1.ctx.rowStride = st.ctx.rowStride := by
  simp only [rleControl]
  split_ifs <;> simp only [endRLERow_rowStride]

/-- rleAdvance leaves the context untouched. -/
theorem rleAdvance_ctx (st : RLESt) : (rleAdvance st).ctx = st.ctx := rfl

/-- rleAdvance advances the stream position by the two bytes read. -/
theorem rleAdvance_pos (st : RLESt) : (rleAdvance st).pos = st.pos + 2 := rfl

/-- One loop iteration never touches the row stride. -/
theorem rleStep_rowStride (st : RLESt) (b1 b2 : Nat) :
    (rleStep st b1 b2).1.ctx.rowStride = st.ctx.rowStride := by
  simp only [rleStep]
  split_ifs <;>
    simp only [rleLiteral24_rowStride, rleLiteral4_rowStride, rleLiteral8_rowStride,
      rleDelta_rowStride, rlePending24_rowStride, rleControl_rowStride,
      rleRun24_rowStride, rleRun4_rowStride, rleRun8_rowStride, rleAdvance_ctx]

/-- The whole decode loop never touches the row stride. -/
theorem rleLoop_rowStride (d : List Nat) (st : RLESt) :
    (rleLoop d st).1.ctx.rowStride = st.ctx.rowStride := by
  induction d, st using rleLoop.induct with
  | case1 b1 b2 rest st p hb =>
    simp only [rleLoop]
    rw [if_pos hb]
    exact rleStep_rowStride st b1 b2
  | case2 b1 b2 rest st p hb ih =>
    simp only [rleLoop]
    rw [if_neg hb, ih, rleStep_rowStride]
  | case3 t st h =>
    cases t with
    | nil => exact endRLERow_rowStride st
    | cons x tl =>
      cases tl with
      | nil => exact endRLERow_rowStride st
      | cons y tl2 => exact absurd rfl (h x y tl2)

/-- printRLECompressedPixels never touches the row stride. -/
theorem printRLE_rowStride (ctx : Ctx) (d : List Nat) :
    (printRLECompressedPixels ctx d).rowStride = ctx.rowStride := by
  have key : ∀ t : RLESt,
      ({ t.ctx with actualBitsSize := (t.pos : Int) } : Ctx).rowStride = t.ctx.rowStride :=
    fun t => rfl
  simp only [printRLECompressedPixels]
  split_ifs <;> first
    | rfl
    | (rw [key, rleLoop_rowStride]; rfl)

/-!  Preservation lemmas for the uncompressed pixel decoders.  -/

/-- badColor never touches the row stride. -/
theorem badColor_rowStride (c : Ctx) (n x : Int) :
    (badColor c n x).rowStride = c.rowStride := by
  simp only [badColor]
  split_ifs <;> rfl

/-- rowPixels preserves the row stride whenever its per-pixel action does. -/
theorem rowPixels_rowStride (pix : Ctx → List Nat → Nat → Ctx)
    (hp : ∀ c d i, (pix c d i).rowStride = c.rowStride) (c : Ctx) (d : List Nat) :
    ∀ n, (rowPixels pix c d n).rowStride = c.rowStride
  | 0 => rfl
  | n + 1 => by
    rw [rowPixels, hp, rowPixels_rowStride pix hp c d n]

/-- printRow_1 never touches the row stride. -/
theorem printRow_1_rowStride (c : Ctx) (d : List Nat) :
    (printRow_1 c d).rowStride = c.rowStride := by
  refine rowPixels_rowStride _ (fun c d i => ?_) c d c.imgWidth.toNat
  dsimp only
  split_ifs <;> simp only [badColor_rowStride]

/-- printRow_2 never touches the row stride. -/
theorem printRow_2_rowStride (c : Ctx) (d : List Nat) :
    (printRow_2 c d).rowStride = c.rowStride := by
  refine rowPixels_rowStride _ (fun c d i => ?_) c d c.imgWidth.toNat
  dsimp only
  split_ifs <;> simp only [badColor_rowStride]

/-- printRow_4 never touches the row stride. -/
theorem printRow_4_rowStride (c : Ctx) (d : List Nat) :
    (printRow_4 c d).rowStride = c.rowStride := by
  refine rowPixels_rowStride _ (fun c d i => ?_) c d c.imgWidth.toNat
  dsimp only
  split_ifs <;> simp only [badColor_rowStride]

/-- printRow_8 never touches the row stride. -/
theorem printRow_8_rowStride (c : Ctx) (d : List Nat) :
    (printRow_8 c d).rowStride = c.rowStride := by
  refine rowPixels_rowStride _ (fun c d i => ?_) c d c.imgWidth.toNat
  dsimp only
  split_ifs <;> simp only [badColor_rowStride]

/-- Every routine in the printRowFuncs table preserves the row stride. -/
theorem printRowFuncs_rowStride (bc : Nat) (pR : Ctx → List Nat → Ctx)
    (h : printRowFuncs bc = some pR) (c : Ctx) (d : List Nat) :
    (pR c d).rowStride = c.rowStride := by
  unfold printRowFuncs at h
  split at h <;> cases h <;> first
    | exact printRow_1_rowStride c d
    | exact printRow_2_rowStride c d
    | exact printRow_4_rowStride c d
    | exact printRow_8_rowStride c d
    | rfl

/-- The row loop preserves the row stride whenever the row routine does. -/
theorem uncompRows_rowStride (pR : Ctx → List Nat → Ctx)
    (hp : ∀ c d, (pR c d).rowStride = c.rowStride) (d : List Nat) (ctx : Ctx) :
    ∀ n, (uncompRows pR d ctx n).rowStride = ctx.rowStride
  | 0 => rfl
  | n + 1 => by
    rw [uncompRows]
    split_ifs with hh
    · show (uncompRows pR d ctx n |> fun c => pR c _).rowStride = ctx.rowStride
      rw [hp, uncompRows_rowStride pR hp d ctx n]
    · rw [hp, uncompRows_rowStride pR hp d ctx n]

/-- printUncompressedPixels never touches the row stride. -/
theorem printUncompressed_rowStride (ctx : Ctx) (d : List Nat) :
    (printUncompressedPixels ctx d).rowStride = ctx.rowStride := by
  unfold printUncompressedPixels
  cases hpf : printRowFuncs ctx.bitCount with
  | none => rfl
  | some pR =>
    exact uncompRows_rowStride pR (printRowFuncs_rowStride ctx.bitCount pR hpf) d ctx _

/-- The row stride inspectBits computes and stores (line 1276 of the source):
the pixel decoders it then runs never modify it. -/
theorem inspectBits_rowStride (ctx : Ctx) (d : List Nat) :
    (inspectBits ctx d).rowStride
      = ((ctx.imgWidth * (ctx.bitCount : Int) + 31).tdiv 32) * 4 := by
  simp only [inspectBits]
  split_ifs <;> (try split) <;>
    simp only [printUncompressed_rowStride, printRLE_rowStride]

/-!  C2.  -/

/-- C2: for every valid bit depth d in 1/2/4/8/16/24/32 and width w at least
1, the row stride inspectBits computes equals ((w*d+31)/32)*4 in truncating
integer division, and is a positive multiple of 4. -/
theorem inspectBits_stride_spec (ctx : Ctx) (d : List Nat) (hw : 1 ≤ ctx.imgWidth)
    (hb : ctx.bitCount = 1 ∨ ctx.bitCount = 2 ∨ ctx.bitCount = 4 ∨ ctx.bitCount = 8 ∨
      ctx.bitCount = 16 ∨ ctx.bitCount = 24 ∨ ctx.bitCount = 32) :
    (inspectBits ctx d).rowStride
        = ((ctx.imgWidth * (ctx.bitCount : Int) + 31).tdiv 32) * 4 ∧
    0 < (inspectBits ctx d).rowStride ∧
    (4 : Int) ∣ (inspectBits ctx d).rowStride := by
  have h1 := inspectBits_rowStride ctx d
  have hpos : (32 : Int) ≤ ctx.imgWidth * (ctx.bitCount : Int) + 31 := by
    rcases hb with h | h | h | h | h | h | h <;> rw [h] <;> push_cast <;> omega
  refine ⟨h1, ?_, ?_⟩
  · rw [h1, Int.tdiv_eq_ediv (by omega) (by norm_num)]
    omega
  · rw [h1]
    exact ⟨_, mul_comm _ 4⟩

/-- C2, witness: width 2 at 24 bits per pixel gives stride 8. -/
theorem inspectBits_stride_spec_witness :
    1 ≤ strideCtx.imgWidth ∧
    ((inspectBits strideCtx []).rowStride
        = ((strideCtx.imgWidth * (strideCtx.bitCount : Int) + 31).tdiv 32) * 4 ∧
     0 < (inspectBits strideCtx []).rowStride ∧
     (4 : Int) ∣ (inspectBits strideCtx []).rowStride) ∧
    (inspectBits strideCtx []).rowStride = 8 :=
  ⟨by decide, inspectBits_stride_spec strideCtx [] (by decide) (by decide), by decide⟩

/-!  Helper lemmas about the v3 header decoder.  -/

/-- v3Geometry stores the bit count read at offset 14. -/
theorem v3Geometry_bitCount (ctx : Ctx) (d : List Nat) :
    (v3Geometry ctx d).bitCount = getWORD d 14 := by
  simp only [v3Geometry]

/-- v3Geometry does not touch the compression fields. -/
theorem v3Geometry_compressionCode (ctx : Ctx) (d : List Nat) :
    (v3Geometry ctx d).compressionCode = ctx.compressionCode := by
  simp only [v3Geometry]
  split_ifs <;> rfl

/-- v3Geometry does not touch the isCompressed flag. -/
theorem v3Geometry_isCompressed (ctx : Ctx) (d : List Nat) :
    (v3Geometry ctx d).isCompressed = ctx.isCompressed := by
  simp only [v3Geometry]
  split_ifs <;> rfl

/-- v3Geometry does not touch the SizeImage field. -/
theorem v3Geometry_sizeImage (ctx : Ctx) (d : List Nat) :
    (v3Geometry ctx d).sizeImage = ctx.sizeImage := by
  simp only [v3Geometry]
  split_ifs <;> rfl

/-- On a slice too short to hold the compression field, v3Compression is the
identity. -/
theorem v3Compression_short (c : Ctx) (d : List Nat) (h : d.length < 20) :
    v3Compression c d = c := by
  simp only [v3Compression]
  rw [if_neg (by omega)]

/-- v3Compression does not touch the bit count. -/
theorem v3Compression_bitCount (c : Ctx) (d : List Nat) :
    (v3Compression c d).bitCount = c.bitCount := by
  simp only [v3Compression]
  split_ifs <;> rfl

/-- v3Compression does not touch the SizeImage field. -/
theorem v3Compression_sizeImage (c : Ctx) (d : List Nat) :
    (v3Compression c d).sizeImage = c.sizeImage := by
  simp only [v3Compression]
  split_ifs <;> rfl

/-!  C3.  -/

/-- C3, counterexample: a 44-of-64-byte OS/2 v2 header slice is not always
decoded successfully - a ClrUsed field above 100000 (here 200000) still
aborts with the fatal color-table-size error even on a truncated header. -/
theorem os2v2Truncated_cex :
    os2v2TruncBadClrUsed.length = 44 ∧
    inspectInfoheaderOS2V2 {} os2v2TruncBadClrUsed
      = .error "Unreasonable color table size" := by
  exact ⟨rfl, rfl⟩

/-- C3 (amended): an OS/2 v2 header slice shorter than the full 64-byte
layout decodes the fields that fit, leaves the rest at their prior defaults
(shown here for the compression and SizeImage fields) and returns success -
provided the ClrUsed field, when it fits, does not exceed 100000, which is a
fatal error regardless of truncation. -/
theorem os2v2Truncated_ok (ctx : Ctx) (d : List Nat)
    (h16 : 16 ≤ d.length) (h64 : d.length < 64)
    (hcu : 36 ≤ d.length → getDWORD d 32 ≤ 100000) :
    ∃ c, inspectInfoheaderOS2V2 ctx d = .ok c ∧
      (d.length < 20 → c.compressionCode = ctx.compressionCode ∧
        c.isCompressed = ctx.isCompressed) ∧
      (d.length < 24 → c.sizeImage = ctx.sizeImage) := by
  have hclr : ¬100000 < (if 36 ≤ d.length then getDWORD d 32 else 0) := by
    split_ifs with h36
    · have := hcu h36
      omega
    · omega
  simp only [inspectInfoheaderOS2V2, inspectInfoheaderV3]
  rw [if_neg hclr]
  refine ⟨_, rfl, fun h20 => ⟨?_, ?_⟩, fun h24 => ?_⟩
  · show (if 24 ≤ d.length then _ else _ : Ctx).compressionCode = _
    rw [if_neg (show ¬24 ≤ d.length by omega), v3Compression_short _ d (by omega),
      v3Geometry_compressionCode]
  · show (if 24 ≤ d.length then _ else _ : Ctx).isCompressed = _
    rw [if_neg (show ¬24 ≤ d.length by omega), v3Compression_short _ d (by omega),
      v3Geometry_isCompressed]
  · show (if 24 ≤ d.length then _ else _ : Ctx).sizeImage = _
    rw [if_neg (show ¬24 ≤ d.length by omega), v3Compression_sizeImage,
      v3Geometry_sizeImage]

/-- C3, witness: a concrete 44-byte OS/2 v2 header decodes successfully. -/
theorem os2v2Truncated_ok_witness :
    16 ≤ os2v2TruncGood.length ∧ os2v2TruncGood.length < 64 ∧
    (∃ c, inspectInfoheaderOS2V2 ({} : Ctx) os2v2TruncGood = .ok c ∧
      (os2v2TruncGood.length < 20 → c.compressionCode = ({} : Ctx).compressionCode ∧
        c.isCompressed = ({} : Ctx).isCompressed) ∧
      (os2v2TruncGood.length < 24 → c.sizeImage = ({} : Ctx).sizeImage)) :=
  ⟨by decide, by decide,
    os2v2Truncated_ok {} os2v2TruncGood (by decide) (by decide) (by decide)⟩

/-!  C8.  -/

/-- C8, counterexample: an OS/2-style header with bit depth 8 and no
colors-used field does not always get 2^8 = 256 palette entries - when the
bitmap overlaps the color table (bfOffBits 56, header size 12, so only 30
bytes remain for the table) the entry count is clipped to 30/3 = 10. -/
theorem paletteSizing_cex :
    getWORD os2Depth8Header 10 = 8 ∧
    (inspectInfoheaderOS2 os2OverlapCtx os2Depth8Header).toOption.map
        (fun c => c.palNumEntries) = some 10 ∧
    (10 : Int) ≠ 2 ^ 8 := by
  refine ⟨rfl, rfl, by decide⟩

/-- C8 (amended): for bit depths 1..8 the palette entry count equals
2^bitDepth when the colors-used field is zero or absent and the colors-used
value otherwise; colors-used above 100000 aborts with a fatal error; the
entry width is 3 bytes for OS/2-style decoding and 4 bytes for Windows
v3-and-later - except that OS/2-style decoding clips the entry count to
(bfOffBits - 14 - headerSize)/3 entries when that many bytes lie between the
headers and the bitmap and they are fewer than the table needs. -/
theorem paletteSizing_rule :
    (∀ (ctx : Ctx) (d : List Nat), 1 ≤ getWORD d 14 → getWORD d 14 ≤ 8 →
      (¬100000 < (if 36 ≤ d.length then getDWORD d 32 else 0) →
        (inspectInfoheaderV3 ctx d).toOption.map
            (fun c => (c.palNumEntries, c.palBytesPerEntry))
          = some ((if (if 36 ≤ d.length then getDWORD d 32 else 0) = 0
                   then (2 : Int) ^ getWORD d 14
                   else ((if 36 ≤ d.length then getDWORD d 32 else 0 : Nat) : Int)), 4)) ∧
      (36 ≤ d.length → 100000 < getDWORD d 32 →
        inspectInfoheaderV3 ctx d = .error "Unreasonable color table size")) ∧
    (∀ (ctx : Ctx) (d : List Nat), 1 ≤ getWORD d 10 → getWORD d 10 ≤ 8 →
      (inspectInfoheaderOS2 ctx d).toOption.map
          (fun c => (c.palNumEntries, c.palBytesPerEntry))
        = some ((if 3 ≤ (ctx.bfOffBits : Int) - (14 + (ctx.infoHeaderSize : Int)) ∧
                    (ctx.bfOffBits : Int) - (14 + (ctx.infoHeaderSize : Int))
                      < 3 * (2 : Int) ^ getWORD d 10
                 then ((ctx.bfOffBits : Int) - (14 + (ctx.infoHeaderSize : Int))).tdiv 3
                 else (2 : Int) ^ getWORD d 10), 3)) := by
  refine ⟨fun ctx d h1 h8 => ⟨fun hclr => ?_, fun h36 hbig => ?_⟩, fun ctx d h1 h8 => ?_⟩
  · have hbc : (if 24 ≤ d.length then
        { v3Compression (v3Geometry ctx d) d with sizeImage := getDWORD d 20 }
        else v3Compression (v3Geometry ctx d) d).bitCount = getWORD d 14 := by
      split_ifs <;>
        exact (v3Compression_bitCount (v3Geometry ctx d) d).trans (v3Geometry_bitCount ctx d)
    simp only [inspectInfoheaderV3]
    rw [if_neg hclr]
    simp only [Except.toOption, Option.map]
    rw [hbc, if_pos (show 0 < getWORD d 14 ∧ getWORD d 14 ≤ 8 from ⟨by omega, h8⟩)]
  · simp only [inspectInfoheaderV3]
    rw [if_pos (by rw [if_pos h36]; exact hbig)]
  · simp only [inspectInfoheaderOS2]
    rw [if_pos (show getWORD d 10 ≤ 8 from h8)]
    simp only [Except.toOption]
    split_ifs with hh
    · rfl
    · rfl

/-- C8, witness: concrete instances of all three parts of the palette sizing
rule - a Windows v3 header with depth 8 and ClrUsed 7 yields 7 entries of 4
bytes, and an OS/2 header with depth 8 and no overlap yields 256 entries of
3 bytes. -/
theorem paletteSizing_rule_witness :
    (1 ≤ getWORD v3Depth8Header 14 ∧ getWORD v3Depth8Header 14 ≤ 8 ∧
      (inspectInfoheaderV3 ({} : Ctx) v3Depth8Header).toOption.map
          (fun c => (c.palNumEntries, c.palBytesPerEntry)) = some (7, 4)) ∧
    (1 ≤ getWORD os2Depth8Header 10 ∧ getWORD os2Depth8Header 10 ≤ 8 ∧
      (inspectInfoheaderOS2 ({} : Ctx) os2Depth8Header).toOption.map
          (fun c => (c.palNumEntries, c.palBytesPerEntry)) = some (256, 3)) := by
  refine ⟨⟨by decide, by decide, ?_⟩, ⟨by decide, by decide, ?_⟩⟩
  · have h := (paletteSizing_rule.1 ({} : Ctx) v3Depth8Header (by decide) (by decide)).1
      (by decide)
    rw [h]
    rfl
  · have h := paletteSizing_rule.2 ({} : Ctx) os2Depth8Header (by decide) (by decide)
    rw [h]
    rfl

/-!  C9.  -/

/-- C9, counterexample: an advertised pixel-data offset exactly equal to the
cursor is accepted, so the fatal-error interval is not the half-open
(cursor, fileSize]: with cursor = bfOffBits = 54 the offset check passes and
the whole file decodes successfully. -/
theorem bfOffBitsAtCursor_cex :
    (tightOffsetCtx.bfOffBits : Int) = tightOffsetCtx.pos ∧
    (readBmpTail tightOffsetCtx fileTightOffset).isOk = true ∧
    (readBmp (initCtx fileTightOffset) fileTightOffset).isOk = true := by
  exact ⟨rfl, rfl, rfl⟩

/-- C9 (amended): after file header, info header, bitfields and palette are
consumed, readBmp fails with "Bad bfOffBits value" exactly when the
advertised offset lies outside the closed interval [cursor, fileSize];
otherwise any gap is unused padding (printed, not an error) and decoding
continues at the offset. -/
theorem readBmpTail_offset_rule (ctx : Ctx) (data : List Nat) :
    (((ctx.bfOffBits : Int) < ctx.pos ∨ (ctx.bfOffBits : Int) > ctx.fileSize) →
      readBmpTail ctx data = .error "Bad bfOffBits value") ∧
    (ctx.pos ≤ (ctx.bfOffBits : Int) → (ctx.bfOffBits : Int) ≤ ctx.fileSize →
      readBmpTail ctx data = readBmpBits { ctx with pos := (ctx.bfOffBits : Int) } data) := by
  constructor
  · intro h
    simp only [readBmpTail]
    rw [if_pos h]
  · intro h1 h2
    simp only [readBmpTail]
    rw [if_neg (by omega)]

/-- C9, witness: a backward offset is fatal; an offset equal to the cursor
continues at the offset. -/
theorem readBmpTail_offset_rule_witness :
    readBmpTail badOffCtx [] = .error "Bad bfOffBits value" ∧
    readBmpTail tightOffsetCtx fileTightOffset
      = readBmpBits { tightOffsetCtx with pos := (tightOffsetCtx.bfOffBits : Int) }
          fileTightOffset :=
  ⟨(readBmpTail_offset_rule badOffCtx []).1 (by decide),
   (readBmpTail_offset_rule tightOffsetCtx fileTightOffset).2 (by decide) (by decide)⟩

/-!  C10.  -/

/-- C10: when pixel decoding consumed no bytes (actualBitsSize < 1), the
tail of readBmp returns success immediately - the color-profile location and
size checks are skipped even when a profile was flagged. -/
theorem readBmpFinish_skip (ctx : Ctx) (h : ctx.actualBitsSize < 1) :
    readBmpFinish ctx = .ok ctx := by
  simp only [readBmpFinish]
  rw [if_pos h]

/-- C10, witness: a context with an embedded profile whose location lies
before the cursor (which would otherwise be the fatal "Invalid color profile
location") still returns success when no pixel bytes were consumed. -/
theorem readBmpFinish_skip_witness :
    skippedBitsCtx.actualBitsSize < 1 ∧ skippedBitsCtx.hasProfile = true ∧
    skippedBitsCtx.profileOffset < skippedBitsCtx.pos ∧
    readBmpFinish skippedBitsCtx = .ok skippedBitsCtx :=
  ⟨by decide, rfl, by decide, readBmpFinish_skip skippedBitsCtx (by decide)⟩

/-!  Position and row-state lemmas for the RLE loop.  -/

/-- endRLERow leaves the stream position alone. -/
theorem endRLERow_pos (st : RLESt) : (endRLERow st).pos = st.pos := by
  simp only [endRLERow]
  split_ifs <;> rfl

/-- After endRLERow the current row is closed (no row header pending). -/
theorem endRLERow_rowHeader (st : RLESt) : (endRLERow st).rowHeaderPrinted = false := by
  simp only [endRLERow]
  split_ifs <;> first | rfl | simp_all

/-- checkRLEPosAndColor leaves the stream position alone. -/
theorem checkRLE_pos (st : RLESt) (n : Nat) : (checkRLEPosAndColor st n).pos = st.pos := by
  simp only [checkRLEPosAndColor]
  split_ifs <;> rfl

/-- setClr leaves the stream position alone. -/
theorem setClr_pos (st : RLESt) (i v : Nat) : (setClr st i v).pos = st.pos := by
  unfold setClr
  repeat' split
  all_goals rfl

/-- rleLiteralPixel leaves the stream position alone. -/
theorem rleLiteralPixel_pos (st : RLESt) (n : Nat) :
    (rleLiteralPixel st n).pos = st.pos := by
  simp only [rleLiteralPixel]
  exact checkRLE_pos st n

/-- rleLiteral24 leaves the stream position alone. -/
theorem rleLiteral24_pos (st : RLESt) (b1 b2 : Nat) :
    (rleLiteral24 st b1 b2).pos = st.pos := by
  simp only [rleLiteral24]
  split_ifs <;> simp only [checkRLE_pos, setClr_pos]

/-- rleLiteral4 leaves the stream position alone. -/
theorem rleLiteral4_pos (st : RLESt) (b1 b2 : Nat) :
    (rleLiteral4 st b1 b2).pos = st.pos := by
  simp only [rleLiteral4]
  split_ifs <;> simp only [rleLiteralPixel_pos]

/-- rleLiteral8 leaves the stream position alone. -/
theorem rleLiteral8_pos (st : RLESt) (b1 b2 : Nat) :
    (rleLiteral8 st b1 b2).pos = st.pos := by
  simp only [rleLiteral8]
  split_ifs <;> simp only [rleLiteralPixel_pos]

/-- rleDelta leaves the stream position alone. -/
theorem rleDelta_pos (st : RLESt) (b1 b2 : Nat) : (rleDelta st b1 b2).pos = st.pos := by
  simp only [rleDelta]
  split_ifs <;> simp only [endRLERow_pos]

/-- rlePending24 leaves the stream position alone. -/
theorem rlePending24_pos (st : RLESt) (b1 b2 : Nat) :
    (rlePending24 st b1 b2).pos = st.pos := by
  simp only [rlePending24, checkRLE_pos]

/-- rleRun4 leaves the stream position alone. -/
theorem rleRun4_pos (st : RLESt) (b1 b2 : Nat) : (rleRun4 st b1 b2).pos = st.pos := by
  simp only [rleRun4]
  split_ifs <;> simp only [checkRLE_pos]

/-- rleRun8 leaves the stream position alone. -/
theorem rleRun8_pos (st : RLESt) (b1 b2 : Nat) : (rleRun8 st b1 b2).pos = st.pos := by
  simp only [rleRun8, checkRLE_pos]

/-- rleRun24 leaves the stream position alone. -/
theorem rleRun24_pos (st : RLESt) (b1 b2 : Nat) : (rleRun24 st b1 b2).pos = st.pos := by
  simp only [rleRun24, checkRLE_pos]

/-- rleControl leaves the stream position alone. -/
theorem rleControl_pos (st : RLESt) (b2 : Nat) : (rleControl st b2).1.pos = st.pos := by
  simp only [rleControl]
  split_ifs <;> simp only [endRLERow_pos]

/-- Every loop iteration consumes exactly two bytes. -/
theorem rleStep_pos (st : RLESt) (b1 b2 : Nat) :
    (rleStep st b1 b2).1.pos = st.pos + 2 := by
  simp only [rleStep]
  split_ifs <;>
    simp only [rleLiteral24_pos, rleLiteral4_pos, rleLiteral8_pos, rleDelta_pos,
      rlePending24_pos, rleControl_pos, rleRun24_pos, rleRun4_pos, rleRun8_pos,
      rleAdvance_pos]

/-- When the loop ends by running out of bytes (no end-of-bitmap code), the
row is closed out and exactly 2*(length/2) bytes were consumed. -/
theorem rleLoop_exhausted (d : List Nat) (st : RLESt)
    (h : (rleLoop d st).2 = false) :
    (rleLoop d st).1.rowHeaderPrinted = false ∧
    (rleLoop d st).1.pos = st.pos + 2 * (d.length / 2) := by
  induction d, st using rleLoop.induct with
  | case1 b1 b2 rest st p hb =>
    have hb2 : (rleStep st b1 b2).2 = true := hb
    rw [rleLoop, if_pos hb2, hb2] at h
    cases h
  | case2 b1 b2 rest st p hb ih =>
    rw [rleLoop] at h ⊢
    rw [if_neg hb] at h ⊢
    have h2 := ih h
    refine ⟨h2.1, ?_⟩
    rw [h2.2, rleStep_pos]
    have : (b1 :: b2 :: rest).length = rest.length + 2 := by simp
    rw [this]
    omega
  | case3 t st ht =>
    have hbase : rleLoop t st = (endRLERow st, false) := by
      cases t with
      | nil => rfl
      | cons x tl =>
        cases tl with
        | nil => rfl
        | cons y tl2 => exact absurd rfl (ht x y tl2)
    rw [hbase]
    refine ⟨endRLERow_rowHeader st, ?_⟩
    rw [endRLERow_pos]
    cases t with
    | nil => simp
    | cons x tl =>
      cases tl with
      | nil => simp
      | cons y tl2 => exact absurd rfl (ht x y tl2)

/-!  C7.  -/

/-- C7: when an RLE pixel region ends with fewer than two bytes remaining
and no end-of-bitmap code was seen (loop result flag false), the decoder
closes out the current row, stops without any error (the function is total
and error-free), and printRLECompressedPixels records the bytes consumed so
far - two per iteration, 2*(length/2) in all - as the actual pixel-region
size. -/
theorem rleTruncation_rule :
    (∀ (d : List Nat) (st : RLESt), (rleLoop d st).2 = false →
      (rleLoop d st).1.rowHeaderPrinted = false ∧
      (rleLoop d st).1.pos = st.pos + 2 * (d.length / 2)) ∧
    (∀ (ctx : Ctx) (d : List Nat), ctx.bitCount = 8 → ctx.compressionCode = 1 →
      (rleLoop d (initRLESt ctx)).2 = false →
      (printRLECompressedPixels ctx d).actualBitsSize
        = ((2 * (d.length / 2) : Nat) : Int)) := by
  refine ⟨rleLoop_exhausted, fun ctx d h8 h1 hno => ?_⟩
  simp only [printRLECompressedPixels]
  rw [if_neg (by simp [h8]), if_neg (by simp [h8]), if_neg (by simp [h1]),
    if_neg (by simp [h8])]
  have h2 := (rleLoop_exhausted d (initRLESt ctx) hno).2
  show ((rleLoop d (initRLESt ctx)).1.pos : Int) = _
  rw [h2]
  simp [initRLESt]

/-- C7, witness: the stream [3, 5] (a compressed run with no terminator)
ends by exhaustion; the row is closed and both bytes are recorded. -/
theorem rleTruncation_rule_witness :
    (rleLoop [3, 5] rle8St).2 = false ∧
    ((rleLoop [3, 5] rle8St).1.rowHeaderPrinted = false ∧
     (rleLoop [3, 5] rle8St).1.pos = rle8St.pos + 2 * (([3, 5] : List Nat).length / 2)) ∧
    (printRLECompressedPixels rle8Ctx [3, 5]).actualBitsSize
      = ((2 * (([3, 5] : List Nat).length / 2) : Nat) : Int) :=
  ⟨by decide, rleTruncation_rule.1 [3, 5] rle8St (by decide),
   rleTruncation_rule.2 rle8Ctx [3, 5] rfl rfl (by decide)⟩

/-!  Latch lemmas for the bad-palette-index warning state.  -/

/-- Once the bad-color latch is set, checkRLEPosAndColor leaves the whole
context untouched. -/
theorem checkRLE_ctx_of_flag (st : RLESt) (n : Nat)
    (h : st.ctx.badColorFlag = true) :
    (checkRLEPosAndColor st n).ctx = st.ctx := by
  simp only [checkRLEPosAndColor]
  split_ifs <;> first | rfl | simp_all

/-- checkRLEPosAndColor does not change the palette entry count. -/
theorem checkRLE_palNum (st : RLESt) (n : Nat) :
    (checkRLEPosAndColor st n).ctx.palNumEntries = st.ctx.palNumEntries := by
  simp only [checkRLEPosAndColor]
  split_ifs <;> rfl

/-- checkRLEPosAndColor does not change the compression code. -/
theorem checkRLE_cc (st : RLESt) (n : Nat) :
    (checkRLEPosAndColor st n).ctx.compressionCode = st.ctx.compressionCode := by
  simp only [checkRLEPosAndColor]
  split_ifs <;> rfl

/-- checkRLEPosAndColor does not change the current column or row. -/
theorem checkRLE_xpos (st : RLESt) (n : Nat) :
    (checkRLEPosAndColor st n).xpos = st.xpos ∧
    (checkRLEPosAndColor st n).ypos = st.ypos := by
  simp only [checkRLEPosAndColor]
  split_ifs <;> exact ⟨rfl, rfl⟩

/-- Outside RLE24, checkRLEPosAndColor raises the bad-color flag exactly
when it was already set or the checked value reaches the palette entry
count. -/
theorem checkRLE_flag_eq (st : RLESt) (n : Nat)
    (hcc : st.ctx.compressionCode ≠ 4) :
    (checkRLEPosAndColor st n).ctx.badColorFlag
      = (st.ctx.badColorFlag || decide (st.ctx.palNumEntries ≤ (n : Int))) := by
  simp only [checkRLEPosAndColor]
  split_ifs <;> simp_all

/-- Outside RLE24, a failing check with the latch still clear records the
value and the current position. -/
theorem checkRLE_latched (st : RLESt) (n : Nat)
    (hf : st.ctx.badColorFlag = false) (hn : st.ctx.palNumEntries ≤ (n : Int))
    (hcc : st.ctx.compressionCode ≠ 4) :
    (checkRLEPosAndColor st n).ctx.badColorFlag = true ∧
    (checkRLEPosAndColor st n).ctx.badColorIndex = (n : Int) ∧
    (checkRLEPosAndColor st n).ctx.badColor_X = st.xpos ∧
    (checkRLEPosAndColor st n).ctx.badColor_Y = st.ypos := by
  simp only [checkRLEPosAndColor]
  split_ifs <;> simp_all

/-- endRLERow does not change the bad-color flag. -/
theorem endRLERow_flag (st : RLESt) :
    (endRLERow st).ctx.badColorFlag = st.ctx.badColorFlag := by
  simp only [endRLERow]
  split_ifs <;> rfl

/-- endRLERow does not change the latched bad-color value or position. -/
theorem endRLERow_latchFields (st : RLESt) :
    (endRLERow st).ctx.badColorIndex = st.ctx.badColorIndex ∧
    (endRLERow st).ctx.badColor_X = st.ctx.badColor_X ∧
    (endRLERow st).ctx.badColor_Y = st.ctx.badColor_Y := by
  simp only [endRLERow]
  split_ifs <;> exact ⟨rfl, rfl, rfl⟩

/-- Once the latch is set, a literal pixel leaves the context untouched. -/
theorem rleLiteralPixel_ctx_of_flag (st : RLESt) (n : Nat)
    (h : st.ctx.badColorFlag = true) :
    (rleLiteralPixel st n).ctx = st.ctx := by
  simp only [rleLiteralPixel]
  exact checkRLE_ctx_of_flag st n h

/-- Once the latch is set, the RLE24 literal arm leaves the context
untouched. -/
theorem rleLiteral24_ctx_of_flag (st : RLESt) (b1 b2 : Nat)
    (h : st.ctx.badColorFlag = true) :
    (rleLiteral24 st b1 b2).ctx = st.ctx := by
  simp only [rleLiteral24]
  split_ifs <;> simp [setClr_ctx, checkRLE_ctx_of_flag, h]

/-- Once the latch is set, the RLE4 literal arm leaves the context
untouched. -/
theorem rleLiteral4_ctx_of_flag (st : RLESt) (b1 b2 : Nat)
    (h : st.ctx.badColorFlag = true) :
    (rleLiteral4 st b1 b2).ctx = st.ctx := by
  have e1 := rleLiteralPixel_ctx_of_flag st (b1 >>> 4) h
  have h1 : (rleLiteralPixel st (b1 >>> 4)).ctx.badColorFlag = true := by
    rw [e1]; exact h
  have e2 := rleLiteralPixel_ctx_of_flag _ (b1 &&& 15) h1
  have h2 : (rleLiteralPixel (rleLiteralPixel st (b1 >>> 4)) (b1 &&& 15)).ctx.badColorFlag
      = true := by rw [e2, e1]; exact h
  have e3 := rleLiteralPixel_ctx_of_flag _ (b2 >>> 4) h2
  have h3 : (rleLiteralPixel (rleLiteralPixel (rleLiteralPixel st (b1 >>> 4)) (b1 &&& 15))
      (b2 >>> 4)).ctx.badColorFlag = true := by rw [e3, e2, e1]; exact h
  have e4 := rleLiteralPixel_ctx_of_flag _ (b2 &&& 15) h3
  simp only [rleLiteral4]
  split_ifs <;> simp only [e1, e2, e3, e4]

/-- Once the latch is set, the RLE8 literal arm leaves the context
untouched. -/
theorem rleLiteral8_ctx_of_flag (st : RLESt) (b1 b2 : Nat)
    (h : st.ctx.badColorFlag = true) :
    (rleLiteral8 st b1 b2).ctx = st.ctx := by
  simp only [rleLiteral8]
  split_ifs <;> simp [rleLiteralPixel_ctx_of_flag, h]

/-- Once the latch is set, the RLE24 run-completion arm leaves the context
untouched. -/
theorem rlePending24_ctx_of_flag (st : RLESt) (b1 b2 : Nat)
    (h : st.ctx.badColorFlag = true) :
    (rlePending24 st b1 b2).ctx = st.ctx := by
  simp only [rlePending24]
  simp [checkRLE_ctx_of_flag, h]

/-- Once the latch is set, an RLE4 run leaves the context untouched. -/
theorem rleRun4_ctx_of_flag (st : RLESt) (b1 b2 : Nat)
    (h : st.ctx.badColorFlag = true) :
    (rleRun4 st b1 b2).ctx = st.ctx := by
  simp only [rleRun4]
  split_ifs <;> simp [checkRLE_ctx_of_flag, h]

/-- Once the latch is set, an RLE8 run leaves the context untouched. -/
theorem rleRun8_ctx_of_flag (st : RLESt) (b1 b2 : Nat)
    (h : st.ctx.badColorFlag = true) :
    (rleRun8 st b1 b2).ctx = st.ctx := by
  simp only [rleRun8]
  simp [checkRLE_ctx_of_flag, h]

/-- Once the latch is set, an RLE24 run start leaves the context
untouched. -/
theorem rleRun24_ctx_of_flag (st : RLESt) (b1 b2 : Nat)
    (h : st.ctx.badColorFlag = true) :
    (rleRun24 st b1 b2).ctx = st.ctx := by
  simp only [rleRun24]
  simp [checkRLE_ctx_of_flag, h]

/-- Once the latch is set, the delta arm keeps the flag and the latched
value and position. -/
theorem rleDelta_latch (st : RLESt) (b1 b2 : Nat)
    (h : st.ctx.badColorFlag = true) :
    (rleDelta st b1 b2).ctx.badColorFlag = true ∧
    (rleDelta st b1 b2).ctx.badColorIndex = st.ctx.badColorIndex ∧
    (rleDelta st b1 b2).ctx.badColor_X = st.ctx.badColor_X ∧
    (rleDelta st b1 b2).ctx.badColor_Y = st.ctx.badColor_Y := by
  simp only [rleDelta]
  split_ifs <;> simp [endRLERow_flag, endRLERow_latchFields, h]

/-- Once the latch is set, the control-code arm keeps the flag and the
latched value and position. -/
theorem rleControl_latch (st : RLESt) (b2 : Nat)
    (h : st.ctx.badColorFlag = true) :
    (rleControl st b2).1.ctx.badColorFlag = true ∧
    (rleControl st b2).1.ctx.badColorIndex = st.ctx.badColorIndex ∧
    (rleControl st b2).1.ctx.badColor_X = st.ctx.badColor_X ∧
    (rleControl st b2).1.ctx.badColor_Y = st.ctx.badColor_Y := by
  simp only [rleControl]
  split_ifs <;> simp [endRLERow_flag, endRLERow_latchFields, h]

/-- Once the latch is set, a whole loop iteration keeps the flag and the
latched value and position. -/
theorem rleStep_latch (st : RLESt) (b1 b2 : Nat)
    (h : st.ctx.badColorFlag = true) :
    (rleStep st b1 b2).1.ctx.badColorFlag = true ∧
    (rleStep st b1 b2).1.ctx.badColorIndex = st.ctx.badColorIndex ∧
    (rleStep st b1 b2).1.ctx.badColor_X = st.ctx.badColor_X ∧
    (rleStep st b1 b2).1.ctx.badColor_Y = st.ctx.badColor_Y := by
  have hs : (rleAdvance st).ctx.badColorFlag = true := h
  simp only [rleStep]
  split_ifs <;> first
    | (rw [rleLiteral24_ctx_of_flag _ b1 b2 hs]; exact ⟨h, rfl, rfl, rfl⟩)
    | (rw [rleLiteral4_ctx_of_flag _ b1 b2 hs]; exact ⟨h, rfl, rfl, rfl⟩)
    | (rw [rleLiteral8_ctx_of_flag _ b1 b2 hs]; exact ⟨h, rfl, rfl, rfl⟩)
    | exact rleDelta_latch _ b1 b2 hs
    | (rw [rlePending24_ctx_of_flag _ b1 b2 hs]; exact ⟨h, rfl, rfl, rfl⟩)
    | exact rleControl_latch _ b2 hs
    | (rw [rleRun24_ctx_of_flag _ b1 b2 hs]; exact ⟨h, rfl, rfl, rfl⟩)
    | (rw [rleRun4_ctx_of_flag _ b1 b2 hs]; exact ⟨h, rfl, rfl, rfl⟩)
    | (rw [rleRun8_ctx_of_flag _ b1 b2 hs]; exact ⟨h, rfl, rfl, rfl⟩)

/-- Once the latch is set, the whole decode loop keeps the flag and the
latched value and position. -/
theorem rleLoop_latch (d : List Nat) (st : RLESt) :
    st.ctx.badColorFlag = true →
      (rleLoop d st).1.ctx.badColorFlag = true ∧
      (rleLoop d st).1.ctx.badColorIndex = st.ctx.badColorIndex ∧
      (rleLoop d st).1.ctx.badColor_X = st.ctx.badColor_X ∧
      (rleLoop d st).1.ctx.badColor_Y = st.ctx.badColor_Y := by
  induction d, st using rleLoop.induct with
  | case1 b1 b2 rest st p hb =>
    intro h
    have hb2 : (rleStep st b1 b2).2 = true := hb
    rw [rleLoop, if_pos hb2]
    exact rleStep_latch st b1 b2 h
  | case2 b1 b2 rest st p hb ih =>
    intro h
    have hb2 : ¬(rleStep st b1 b2).2 = true := hb
    rw [rleLoop, if_neg hb2]
    have hs := rleStep_latch st b1 b2 h
    have hl := ih hs.1
    exact ⟨hl.1, hl.2.1.trans hs.2.1, hl.2.2.1.trans hs.2.2.1, hl.2.2.2.trans hs.2.2.2⟩
  | case3 t st ht =>
    intro h
    have hbase : rleLoop t st = (endRLERow st, false) := by
      cases t with
      | nil => rfl
      | cons x tl =>
        cases tl with
        | nil => rfl
        | cons y tl2 => exact absurd rfl (ht x y tl2)
    rw [hbase]
    refine ⟨by rw [endRLERow_flag]; exact h, (endRLERow_latchFields st).1,
      (endRLERow_latchFields st).2.1, (endRLERow_latchFields st).2.2⟩

/-- An RLE8 compressed run (value b2 repeated b1 times) raises the bad-color
flag exactly when it was already set or b2 reaches the palette entry count,
and a fresh violation latches the value and the run's starting position. -/
theorem rleRun8_flagSpec (st : RLESt) (b1 b2 : Nat)
    (hcc : st.ctx.compressionCode ≠ 4) :
    ((rleRun8 st b1 b2).ctx.badColorFlag
        = (st.ctx.badColorFlag || decide (st.ctx.palNumEntries ≤ (b2 : Int)))) ∧
    (st.ctx.badColorFlag = false → st.ctx.palNumEntries ≤ (b2 : Int) →
      (rleRun8 st b1 b2).ctx.badColorIndex = (b2 : Int) ∧
      (rleRun8 st b1 b2).ctx.badColor_X = st.xpos ∧
      (rleRun8 st b1 b2).ctx.badColor_Y = st.ypos) := by
  simp only [rleRun8, checkRLEPosAndColor]
  split_ifs <;> (try simp_all) <;> (intro hf hn; simp_all)

/-!  C4.  -/

/-- C4: during RLE8 decoding of an indexed image, a compressed run (b1, b2)
processed in the idle state flags the bad-palette-index warning exactly when
the run value b2 reaches the palette entry count (or the warning was already
latched); a fresh violation latches the value and the current position; and
once latched, the whole rest of the decode loop never overwrites the latched
index and position. -/
theorem rleBadColor_rule :
    (∀ (st : RLESt) (b1 b2 : Nat),
      st.unc_pixels_left ≤ 0 → st.deltaFlag = false → st.rle24pendingFlag = false →
      b1 ≠ 0 → st.ctx.compressionCode = 1 →
      (((rleStep st b1 b2).1.ctx.badColorFlag
          = (st.ctx.badColorFlag || decide (st.ctx.palNumEntries ≤ (b2 : Int)))) ∧
       (st.ctx.badColorFlag = false → st.ctx.palNumEntries ≤ (b2 : Int) →
         (rleStep st b1 b2).1.ctx.badColorIndex = (b2 : Int) ∧
         (rleStep st b1 b2).1.ctx.badColor_X = st.xpos ∧
         (rleStep st b1 b2).1.ctx.badColor_Y = st.ypos))) ∧
    (∀ (d : List Nat) (st : RLESt), st.ctx.badColorFlag = true →
      (rleLoop d st).1.ctx.badColorFlag = true ∧
      (rleLoop d st).1.ctx.badColorIndex = st.ctx.badColorIndex ∧
      (rleLoop d st).1.ctx.badColor_X = st.ctx.badColor_X ∧
      (rleLoop d st).1.ctx.badColor_Y = st.ctx.badColor_Y) := by
  refine ⟨fun st b1 b2 hu hd hp hb1 hc => ?_, rleLoop_latch⟩
  have key := rleRun8_flagSpec (rleAdvance st) b1 b2
    (by rw [rleAdvance_ctx, hc]; omega)
  simp only [rleStep]
  rw [if_neg (by simp only [rleAdvance]; omega),
    if_neg (by simp only [rleAdvance]; simp [hd]),
    if_neg (by simp only [rleAdvance]; simp [hp]),
    if_neg hb1,
    if_neg (by simp only [rleAdvance]; simp [hc]),
    if_neg (by simp only [rleAdvance]; simp [hc])]
  exact key

/-- C4, witness: in the idle RLE8 state with a 4-entry palette, the run
(3, 5) latches value 5 at the current position, and a pre-latched state is
never overwritten by further decoding (here an end-of-line code). -/
theorem rleBadColor_rule_witness :
    (rle8St.unc_pixels_left ≤ 0 ∧ rle8St.deltaFlag = false ∧
     rle8St.rle24pendingFlag = false ∧ rle8St.ctx.compressionCode = 1) ∧
    (((rleStep rle8St 3 5).1.ctx.badColorFlag
        = (rle8St.ctx.badColorFlag || decide (rle8St.ctx.palNumEntries ≤ ((5 : Nat) : Int)))) ∧
     (rle8St.ctx.badColorFlag = false → rle8St.ctx.palNumEntries ≤ ((5 : Nat) : Int) →
       (rleStep rle8St 3 5).1.ctx.badColorIndex = ((5 : Nat) : Int) ∧
       (rleStep rle8St 3 5).1.ctx.badColor_X = rle8St.xpos ∧
       (rleStep rle8St 3 5).1.ctx.badColor_Y = rle8St.ypos)) ∧
    ((rleLoop [0, 0] rle8StLatched).1.ctx.badColorFlag = true ∧
     (rleLoop [0, 0] rle8StLatched).1.ctx.badColorIndex = rle8StLatched.ctx.badColorIndex ∧
     (rleLoop [0, 0] rle8StLatched).1.ctx.badColor_X = rle8StLatched.ctx.badColor_X ∧
     (rleLoop [0, 0] rle8StLatched).1.ctx.badColor_Y = rle8StLatched.ctx.badColor_Y) :=
  ⟨⟨by decide, rfl, rfl, rfl⟩,
   rleBadColor_rule.1 rle8St 3 5 (by decide) rfl rfl (by decide) rfl,
   rleBadColor_rule.2 [0, 0] rle8StLatched rfl⟩
